import Mathlib

/-!
Shallow embedding of the slackinviter service (src/main.go): the Slack
refresh step `updateFromSlack`, the badge layout computation in `badge`,
and the hit-counter side effects of `homepage`, together with theorems
about them.
-/

namespace SlackInviter

/-- A Slack member record as consumed by `updateFromSlack`
(`u.ID`, `u.IsBot`, `u.Deleted`, `u.Presence`). -/
structure Member where
  id : String
  isBot : Bool
  deleted : Bool
  presence : String
deriving Repr, DecidableEq

/-- Team metadata `{name, domain, iconURL}` returned by the team-info call. -/
structure TeamInfo where
  name : String
  domain : String
  iconURL : String
deriving Repr, DecidableEq

/-- The sliding-window rate counter (`ratecounter.RateCounter`):
an interval plus the recorded events as (timestamp, delta) pairs.
Timestamps and the interval are in nanoseconds, like `time.Duration`. -/
structure RateCounter where
  interval : Nat
  events : List (Nat × Int)
deriving Repr, DecidableEq

/-- `counter.Incr(n)`: record `n` events at the current time. -/
def RateCounter.incr (rc : RateCounter) (now : Nat) (n : Int) : RateCounter :=
  { rc with events := rc.events ++ [(now, n)] }

/-- `counter.Rate()`: the sum of deltas recorded inside the trailing window. -/
def RateCounter.rate (rc : RateCounter) (now : Nat) : Int :=
  (rc.events.filter fun e => now < e.1 + rc.interval).foldl
    (fun acc e => acc + e.2) 0

/-- The mutable globals of main.go: the two gauges written by the refresh
loop, the expvar counters, the rate counter, and the team metadata. -/
structure ServerState where
  userCount : Int
  activeUserCount : Int
  requests : Int
  hitsPerMinute : Int
  inviteErrors : Int
  missingFirstName : Int
  missingLastName : Int
  missingEmail : Int
  missingCoC : Int
  successfulCaptcha : Int
  failedCaptcha : Int
  invalidCaptcha : Int
  successfulInvites : Int
  counter : RateCounter
  team : TeamInfo
deriving Repr, DecidableEq

/-- The two external Slack calls made by one refresh cycle, each either an
error or its result. -/
structure SlackAPI where
  getUsers : Except String (List Member)
  getTeamInfo : Except String TeamInfo
deriving Repr

/-- Which external call happened, for tracing what a refresh cycle attempts. -/
inductive ApiCall where
  | getUsers
  | getTeamInfo
deriving Repr, DecidableEq

/-- One minute as a `time.Duration` value (nanoseconds). -/
def minute : Nat := 60000000000

/-- The member filter of the refresh loop:
`u.ID != "USLACKBOT" && !u.IsBot && !u.Deleted`. -/
def keepMember (u : Member) : Bool :=
  u.id != "USLACKBOT" && !u.isBot && !u.deleted

/-- The presence test of the refresh loop: `u.Presence == "active"`. -/
def isActive (u : Member) : Bool :=
  u.presence == "active"

/-- One iteration of the counting loop body in `updateFromSlack`, acting on
the accumulator pair `(uCount, aCount)`. -/
def countStep (acc : Int × Int) (u : Member) : Int × Int :=
  if keepMember u then
    (acc.1 + 1, if isActive u then acc.2 + 1 else acc.2)
  else acc

/-- Modelled from the spec: the `team.Update` method lives in a repository
file absent from src/; per the spec, TeamMetadata is "replaced wholesale on
each successful metadata refresh". -/
def teamUpdate (_old : TeamInfo) (st : TeamInfo) : TeamInfo := st

/-- `updateFromSlack`: one refresh cycle. Returns the updated globals, the
`time.Duration` to sleep before the next cycle, and the trace of external
calls attempted. -/
def updateFromSlack (api : SlackAPI) (s : ServerState) :
    ServerState × Nat × List ApiCall :=
  match api.getUsers with
  | .error _ => (s, minute, [.getUsers])
  | .ok users =>
    let counts := users.foldl countStep (0, 0)
    let s := { s with userCount := counts.1, activeUserCount := counts.2 }
    match api.getTeamInfo with
    | .error _ => (s, minute, [.getUsers, .getTeamInfo])
    | .ok st =>
      ({ s with team := teamUpdate s.team st }, 10 * minute,
       [.getUsers, .getTeamInfo])

/-! Badge layout (the `badge` handler in main.go). -/

/-- `leftText := "slack"`. -/
def leftText : String := "slack"

/-- `padding := 8`. -/
def padding : Nat := 8

/-- `middleSeparator := 4`. -/
def middleSeparator : Nat := 4

/-- `charSpacing := 7`. -/
def charSpacing : Nat := 7

/-- The right-hand badge label: `"<active>/<users>"`, overridden when the
active gauge is zero by the user count alone when positive, else `"-"`. -/
def rightTextOf (userCount activeUserCount : Int) : String :=
  let rt := toString activeUserCount ++ "/" ++ toString userCount
  let noActiveText := if userCount > 0 then toString userCount else "-"
  if activeUserCount == 0 then noActiveText else rt

/-- `leftWidth := padding + (charSpacing * len(leftText)) + middleSeparator`. -/
def leftWidth : Nat := padding + charSpacing * leftText.length + middleSeparator

/-- `rightWidth := middleSeparator + (charSpacing * len(rightText)) + padding`. -/
def rightWidthOf (rightText : String) : Nat :=
  middleSeparator + charSpacing * rightText.length + padding

/-- `totalWidth := leftWidth + rightWidth`. -/
def totalWidthOf (rightText : String) : Nat :=
  leftWidth + rightWidthOf rightText

/-- The values the `badge` handler hands to the badge template. -/
structure BadgeLayout where
  totalWidth : Nat
  leftWidth : Nat
  rightWidth : Nat
  middleSeparator : Nat
  color : String
  leftTextWidth : Nat
  leftTextHeight : Nat
  leftTextHeightPlusOne : Nat
  rightTextWidth : Nat
  rightTextHeight : Nat
  rightTextHeightPlusOne : Nat
  rightText : String
  leftText : String
  userCountText : String
  activeCountText : String
deriving Repr, DecidableEq

/-- The layout computation of the `badge` handler, from the two gauges. -/
def badgeLayout (userCount activeUserCount : Int) : BadgeLayout :=
  let rightText := rightTextOf userCount activeUserCount
  let lw := leftWidth
  let rw := rightWidthOf rightText
  let leftTextHeight := 14
  let rightTextHeight := 14
  { totalWidth := totalWidthOf rightText
    leftWidth := lw
    rightWidth := rw
    middleSeparator := middleSeparator
    color := "#E01563"
    leftTextWidth := lw / 2
    leftTextHeight := leftTextHeight
    leftTextHeightPlusOne := leftTextHeight + 1
    rightTextWidth := lw + rw / 2
    rightTextHeight := rightTextHeight
    rightTextHeightPlusOne := rightTextHeight + 1
    rightText := rightText
    leftText := leftText
    userCountText := toString userCount
    activeCountText := toString activeUserCount }

/-- The `badge` HTTP handler: computes the layout from the current gauges,
runs the template, and writes either the rendered bytes or a 500 error.
It performs no write to any global. -/
def badge (render : BadgeLayout → Except Unit String) (s : ServerState) :
    ServerState × Except Unit String :=
  match render (badgeLayout s.userCount s.activeUserCount) with
  | .error e => (s, .error e)
  | .ok out => (s, .ok out)

/-- The values the `homepage` handler hands to the index template. -/
structure HomepageData where
  siteKey : String
  userCount : String
  activeCount : String
  team : TeamInfo
deriving Repr, DecidableEq

/-- The template input built by `homepage` from the current globals. -/
def homepageData (siteKey : String) (s : ServerState) : HomepageData :=
  { siteKey := siteKey
    userCount := toString s.userCount
    activeCount := toString s.activeUserCount
    team := s.team }

/-- The `homepage` HTTP handler: `counter.Incr(1)`,
`hitsPerMinute.Set(counter.Rate())`, `requests.Add(1)`, then template
execution, answering a 500 error when the template fails. -/
def homepage (siteKey : String) (now : Nat)
    (render : HomepageData → Except Unit String) (s : ServerState) :
    ServerState × Except Unit String :=
  let ctr := s.counter.incr now 1
  let s := { s with counter := ctr }
  let s := { s with hitsPerMinute := ctr.rate now }
  let s := { s with requests := s.requests + 1 }
  match render (homepageData siteKey s) with
  | .error e => (s, .error e)
  | .ok out => (s, .ok out)

/-! Sample data used by the witness theorems. -/

/-- A concrete team-info record. -/
def sampleTeam : TeamInfo :=
  { name := "Gophers", domain := "gophers", iconURL := "icon.png" }

/-- Another concrete team-info record, distinct from `sampleTeam`. -/
def otherTeam : TeamInfo :=
  { name := "Other", domain := "other", iconURL := "o.png" }

/-- A concrete member list: three countable members (two active, one away),
one deleted member, USLACKBOT, and a bot. -/
def sampleUsers : List Member :=
  [ { id := "U1", isBot := false, deleted := false, presence := "active" },
    { id := "U2", isBot := false, deleted := false, presence := "active" },
    { id := "U3", isBot := false, deleted := false, presence := "away" },
    { id := "U4", isBot := false, deleted := true, presence := "active" },
    { id := "USLACKBOT", isBot := false, deleted := false, presence := "active" },
    { id := "U5", isBot := true, deleted := false, presence := "active" } ]

/-- A concrete pre-call server state. -/
def sampleState : ServerState :=
  { userCount := 7
    activeUserCount := 5
    requests := 11
    hitsPerMinute := 2
    inviteErrors := 1
    missingFirstName := 0
    missingLastName := 0
    missingEmail := 0
    missingCoC := 0
    successfulCaptcha := 3
    failedCaptcha := 1
    invalidCaptcha := 0
    successfulInvites := 3
    counter := { interval := minute, events := [(5, 1)] }
    team := sampleTeam }

/-- An API where both calls succeed. -/
def sampleAPI : SlackAPI :=
  { getUsers := .ok sampleUsers, getTeamInfo := .ok otherTeam }

/-- An API where the member-listing call fails. -/
def sampleFailAPI : SlackAPI :=
  { getUsers := .error "boom", getTeamInfo := .ok otherTeam }

/-- An API where listing succeeds but the team-info call fails. -/
def sampleHalfAPI : SlackAPI :=
  { getUsers := .ok sampleUsers, getTeamInfo := .error "boom" }

/-! The counting loop computes filter lengths. -/

/-- Folding `countStep` over the member list adds, to each accumulator
component, the number of kept members and the number of kept active
members respectively. -/
theorem foldl_countStep (users : List Member) :
    ∀ a b : Int,
      users.foldl countStep (a, b)
        = (a + ((users.filter keepMember).length : Int),
           b + (((users.filter keepMember).filter isActive).length : Int)) := by
  induction users with
  | nil => intro a b; simp
  | cons u us ih =>
    intro a b
    by_cases hk : keepMember u
    · by_cases ha : isActive u <;>
        · simp only [List.foldl_cons, countStep, hk, ha, if_true, if_false,
            List.filter_cons, List.length_cons, ih, Prod.mk.injEq,
            ite_true, ite_false]
          constructor <;> push_cast <;> ring
    · simp [List.foldl_cons, countStep, hk, List.filter_cons, ih]

/-- C1: after a successful listing call, the refresh step sets the
userCount gauge to the number of members that are not USLACKBOT, not bots
and not deleted, and the activeUserCount gauge to the number of those
remaining members whose presence is "active", whatever the team-info call
does. -/
theorem updateFromSlack_success_sets_gauges (api : SlackAPI)
    (s : ServerState) (users : List Member) (h : api.getUsers = .ok users) :
    ((updateFromSlack api s).1).userCount
        = ((users.filter keepMember).length : Int)
      ∧ ((updateFromSlack api s).1).activeUserCount
        = (((users.filter keepMember).filter isActive).length : Int) := by
  unfold updateFromSlack
  rw [h]
  have h1 := foldl_countStep users 0 0
  cases ht : api.getTeamInfo <;>
  · show (users.foldl countStep (0, 0)).1 = _
      ∧ (users.foldl countStep (0, 0)).2 = _
    rw [h1]
    constructor <;> simp

/-- Witness for C1: on the sample member list the gauges become the two
filter lengths. -/
theorem updateFromSlack_success_sets_gauges_witness :
    sampleAPI.getUsers = Except.ok sampleUsers
      ∧ (((updateFromSlack sampleAPI sampleState).1).userCount
            = ((sampleUsers.filter keepMember).length : Int)
          ∧ ((updateFromSlack sampleAPI sampleState).1).activeUserCount
            = (((sampleUsers.filter keepMember).filter isActive).length : Int)) :=
  ⟨rfl, updateFromSlack_success_sets_gauges sampleAPI sampleState sampleUsers rfl⟩

/-- C2: when the listing call fails, one refresh cycle leaves the whole
state (both gauges and the team metadata included) unchanged, attempts no
team-info call, and returns exactly one minute. -/
theorem updateFromSlack_listing_failure (api : SlackAPI) (s : ServerState)
    (e : String) (h : api.getUsers = .error e) :
    updateFromSlack api s = (s, minute, [ApiCall.getUsers]) := by
  unfold updateFromSlack
  rw [h]

/-- Witness for C2: the failing sample API leaves the sample state intact. -/
theorem updateFromSlack_listing_failure_witness :
    sampleFailAPI.getUsers = Except.error "boom"
      ∧ updateFromSlack sampleFailAPI sampleState
          = (sampleState, minute, [ApiCall.getUsers]) :=
  ⟨rfl, updateFromSlack_listing_failure sampleFailAPI sampleState "boom" rfl⟩

/-- C4: when both the listing call and the team-info call succeed, the team
metadata is replaced wholesale with the fetched team info and the returned
interval is exactly ten minutes. -/
theorem updateFromSlack_full_success (api : SlackAPI) (s : ServerState)
    (users : List Member) (ti : TeamInfo)
    (hu : api.getUsers = .ok users) (ht : api.getTeamInfo = .ok ti) :
    ((updateFromSlack api s).1).team = ti
      ∧ (updateFromSlack api s).2.1 = 10 * minute := by
  unfold updateFromSlack
  rw [hu, ht]
  simp [teamUpdate]

/-- Witness for C4: the fully successful sample API installs `otherTeam`
and schedules ten minutes. -/
theorem updateFromSlack_full_success_witness :
    sampleAPI.getUsers = Except.ok sampleUsers
      ∧ sampleAPI.getTeamInfo = Except.ok otherTeam
      ∧ (((updateFromSlack sampleAPI sampleState).1).team = otherTeam
          ∧ (updateFromSlack sampleAPI sampleState).2.1 = 10 * minute) :=
  ⟨rfl, rfl,
    updateFromSlack_full_success sampleAPI sampleState sampleUsers otherTeam rfl rfl⟩

/-- C5: within one successful refresh, the computed activeUserCount never
exceeds the computed userCount. -/
theorem refresh_active_le_total (api : SlackAPI) (s : ServerState)
    (users : List Member) (h : api.getUsers = .ok users) :
    ((updateFromSlack api s).1).activeUserCount
      ≤ ((updateFromSlack api s).1).userCount := by
  unfold updateFromSlack
  rw [h]
  have h1 := foldl_countStep users 0 0
  cases ht : api.getTeamInfo <;>
  · show (users.foldl countStep (0, 0)).2 ≤ (users.foldl countStep (0, 0)).1
    rw [h1]
    simp only [zero_add]
    exact_mod_cast List.length_filter_le _ _

/-- Witness for C5: the invariant at the sample inputs. -/
theorem refresh_active_le_total_witness :
    sampleAPI.getUsers = Except.ok sampleUsers
      ∧ ((updateFromSlack sampleAPI sampleState).1).activeUserCount
          ≤ ((updateFromSlack sampleAPI sampleState).1).userCount :=
  ⟨rfl, refresh_active_le_total sampleAPI sampleState sampleUsers rfl⟩

/-- C6: when the listing call succeeds but the team-info call fails, the
gauges are still replaced with the newly computed totals, the team metadata
keeps its previous value, and the returned interval is exactly one
minute. -/
theorem updateFromSlack_teaminfo_failure (api : SlackAPI) (s : ServerState)
    (users : List Member) (e : String)
    (hu : api.getUsers = .ok users) (ht : api.getTeamInfo = .error e) :
    ((updateFromSlack api s).1).userCount
        = ((users.filter keepMember).length : Int)
      ∧ ((updateFromSlack api s).1).activeUserCount
          = (((users.filter keepMember).filter isActive).length : Int)
      ∧ ((updateFromSlack api s).1).team = s.team
      ∧ (updateFromSlack api s).2.1 = minute := by
  unfold updateFromSlack
  rw [hu, ht]
  have h1 := foldl_countStep users 0 0
  refine ⟨?_, ?_, rfl, rfl⟩
  · show (users.foldl countStep (0, 0)).1 = _
    rw [h1]
    simp
  · show (users.foldl countStep (0, 0)).2 = _
    rw [h1]
    simp

/-- Witness for C6: listing succeeds, team-info fails, on the samples. -/
theorem updateFromSlack_teaminfo_failure_witness :
    sampleHalfAPI.getUsers = Except.ok sampleUsers
      ∧ sampleHalfAPI.getTeamInfo = Except.error "boom"
      ∧ (((updateFromSlack sampleHalfAPI sampleState).1).userCount
            = ((sampleUsers.filter keepMember).length : Int)
          ∧ ((updateFromSlack sampleHalfAPI sampleState).1).activeUserCount
            = (((sampleUsers.filter keepMember).filter isActive).length : Int)
          ∧ ((updateFromSlack sampleHalfAPI sampleState).1).team
            = sampleState.team
          ∧ (updateFromSlack sampleHalfAPI sampleState).2.1 = minute) :=
  ⟨rfl, rfl,
    updateFromSlack_teaminfo_failure sampleHalfAPI sampleState sampleUsers
      "boom" rfl rfl⟩

/-- C3: the right-hand badge label is the active/total pair when the active
gauge is nonzero, the user count alone when the active gauge is zero and
the user count positive, and the placeholder "-" otherwise; in particular
(42,0) gives "42", (0,0) gives "-" and (100,7) gives "7/100". -/
theorem rightTextOf_spec (u a : Int) :
    (a ≠ 0 → rightTextOf u a = toString a ++ "/" ++ toString u)
      ∧ (a = 0 ∧ 0 < u → rightTextOf u a = toString u)
      ∧ (a = 0 ∧ u ≤ 0 → rightTextOf u a = "-")
      ∧ rightTextOf 42 0 = "42"
      ∧ rightTextOf 0 0 = "-"
      ∧ rightTextOf 100 7 = "7/100" := by
  refine ⟨?_, ?_, ?_, by decide, by decide, by decide⟩
  · intro h
    simp [rightTextOf, h]
  · rintro ⟨h0, hu⟩
    simp [rightTextOf, h0, hu]
  · rintro ⟨h0, hu⟩
    have hnu : ¬u > 0 := not_lt.mpr hu
    simp [rightTextOf, h0, hnu]

/-- Witness for C3: the three concrete label examples through the theorem. -/
theorem rightTextOf_spec_witness :
    rightTextOf 42 0 = toString (42 : Int)
      ∧ rightTextOf 0 0 = "-"
      ∧ rightTextOf 100 7 = toString (7 : Int) ++ "/" ++ toString (100 : Int) :=
  ⟨(rightTextOf_spec 42 0).2.1 ⟨rfl, by decide⟩,
   (rightTextOf_spec 0 0).2.2.1 ⟨rfl, by decide⟩,
   (rightTextOf_spec 100 7).1 (by decide)⟩

/-- C7: the badge layout widths satisfy the three width equations with the
fixed constants padding 8, separator 4, character pitch 7 and left text
"slack". -/
theorem badgeLayout_widths (u a : Int) :
    (badgeLayout u a).leftWidth
        = padding + charSpacing * leftText.length + middleSeparator
      ∧ (badgeLayout u a).rightWidth
        = middleSeparator + charSpacing * (badgeLayout u a).rightText.length
            + padding
      ∧ (badgeLayout u a).totalWidth
        = (badgeLayout u a).leftWidth + (badgeLayout u a).rightWidth
      ∧ padding = 8 ∧ middleSeparator = 4 ∧ charSpacing = 7
      ∧ leftText = "slack" :=
  ⟨rfl, rfl, rfl, rfl, rfl, rfl, rfl⟩

/-- C8: with the style constants fixed, the total badge width is
monotonically non-decreasing in the character length of the right-hand
label. -/
theorem totalWidthOf_monotone (s t : String) (h : s.length ≤ t.length) :
    totalWidthOf s ≤ totalWidthOf t := by
  unfold totalWidthOf rightWidthOf
  have hm := Nat.mul_le_mul_left charSpacing h
  omega

/-- Witness for C8: a shorter label gives a badge no wider. -/
theorem totalWidthOf_monotone_witness :
    ("7" : String).length ≤ ("7/100" : String).length
      ∧ totalWidthOf "7" ≤ totalWidthOf "7/100" :=
  ⟨by decide, totalWidthOf_monotone "7" "7/100" (by decide)⟩

/-- The badge handler returns the state it was given, on both the success
and the error path. -/
theorem badge_state (render : BadgeLayout → Except Unit String)
    (s : ServerState) : (badge render s).1 = s := by
  unfold badge
  split <;> rfl

/-- The homepage handler's final state: the rate counter has recorded the
hit, the hits-per-minute gauge holds the new rate, the request accumulator
went up by one, and nothing else moved — on both render paths. -/
theorem homepage_state (siteKey : String) (now : Nat)
    (render : HomepageData → Except Unit String) (s : ServerState) :
    (homepage siteKey now render s).1
      = { s with counter := s.counter.incr now 1,
                 hitsPerMinute := (s.counter.incr now 1).rate now,
                 requests := s.requests + 1 } := by
  unfold homepage
  dsimp only
  split <;> rfl

/-- C9: the badge handler changes no cache state at all, and the homepage
handler changes only the hit counters (request accumulator, rate window,
hits-per-minute gauge), leaving the gauges, every other counter and the
team metadata untouched. -/
theorem handlers_cache_frame (renderB : BadgeLayout → Except Unit String)
    (renderH : HomepageData → Except Unit String)
    (siteKey : String) (now : Nat) (s : ServerState) :
    (badge renderB s).1 = s
      ∧ ((homepage siteKey now renderH s).1).userCount = s.userCount
      ∧ ((homepage siteKey now renderH s).1).activeUserCount
          = s.activeUserCount
      ∧ ((homepage siteKey now renderH s).1).team = s.team
      ∧ ((homepage siteKey now renderH s).1).inviteErrors = s.inviteErrors
      ∧ ((homepage siteKey now renderH s).1).missingFirstName
          = s.missingFirstName
      ∧ ((homepage siteKey now renderH s).1).missingLastName
          = s.missingLastName
      ∧ ((homepage siteKey now renderH s).1).missingEmail = s.missingEmail
      ∧ ((homepage siteKey now renderH s).1).missingCoC = s.missingCoC
      ∧ ((homepage siteKey now renderH s).1).successfulCaptcha
          = s.successfulCaptcha
      ∧ ((homepage siteKey now renderH s).1).failedCaptcha = s.failedCaptcha
      ∧ ((homepage siteKey now renderH s).1).invalidCaptcha
          = s.invalidCaptcha
      ∧ ((homepage siteKey now renderH s).1).successfulInvites
          = s.successfulInvites
      ∧ ((homepage siteKey now renderH s).1).requests = s.requests + 1
      ∧ ((homepage siteKey now renderH s).1).counter = s.counter.incr now 1
      ∧ ((homepage siteKey now renderH s).1).hitsPerMinute
          = (s.counter.incr now 1).rate now := by
  rw [homepage_state]
  exact ⟨badge_state renderB s, rfl, rfl, rfl, rfl, rfl, rfl, rfl, rfl,
    rfl, rfl, rfl, rfl, rfl, rfl, rfl⟩

/-- A template that always fails, for the error-path witness. -/
def failRender : HomepageData → Except Unit String := fun _ => .error ()

/-- C10: when template rendering fails, the homepage request is answered
with the error, yet the hit-counter side effects have already happened:
the rate window recorded the event, the hits-per-minute gauge holds the
new rate, and the request accumulator was incremented — none of it rolled
back. -/
theorem homepage_counters_survive_render_failure (siteKey : String)
    (now : Nat) (render : HomepageData → Except Unit String)
    (s : ServerState) (h : ∀ d, render d = .error ()) :
    (homepage siteKey now render s).2 = .error ()
      ∧ (homepage siteKey now render s).1.counter = s.counter.incr now 1
      ∧ (homepage siteKey now render s).1.hitsPerMinute
          = (s.counter.incr now 1).rate now
      ∧ (homepage siteKey now render s).1.requests = s.requests + 1 := by
  refine ⟨?_, ?_, ?_, ?_⟩
  · unfold homepage
    dsimp only
    rw [h]
  all_goals rw [homepage_state]

/-- Witness for C10: the always-failing template on the sample state. -/
theorem homepage_counters_survive_render_failure_witness :
    (homepage "key" 77 failRender sampleState).2 = Except.error ()
      ∧ (homepage "key" 77 failRender sampleState).1.counter
          = sampleState.counter.incr 77 1
      ∧ (homepage "key" 77 failRender sampleState).1.hitsPerMinute
          = (sampleState.counter.incr 77 1).rate 77
      ∧ (homepage "key" 77 failRender sampleState).1.requests
          = sampleState.requests + 1 :=
  homepage_counters_survive_render_failure "key" 77 failRender sampleState
    (fun _ => rfl)

end SlackInviter
